import Mathlib

/-!
Verification development for the MySQL → BigQuery incremental sync pipeline
(repository `mysql-to-bigquery-sync`, version 3 sources).

The Python components are shallowly embedded as executable Lean functions:

* `merge_update_row` / `merge_staging_to_target` embed the MERGE statement
  built by `BigQueryHandler.merge_staging_to_target` (`src/bq_handler.py`).
* `mysql_type_to_bigquery`, `add_missing_columns` and the `prepare_*`
  functions embed `SchemaManager` (`src/schema_manager.py`).
* `get_last_sync_time` and `update_metadata` embed `MetadataManager`
  (`src/metadata_manager.py`).
* `sync_table` and `run_sync_pipeline` embed `SyncOrchestrator`
  (`src/sync_orchestrator.py`).

Timestamps (MySQL watermark values and BigQuery TIMESTAMP cells) are
modelled as `Int`, counting seconds since 1970-01-01T00:00:00; the epoch
sentinel `datetime(1970, 1, 1)` is therefore the integer `0`.
Python `(value, error)` pairs and raised exceptions are modelled with
`Except`/`Option` error components.  The accumulated remark string
(built with `+=` in the orchestrator) is modelled as the list of the
appended string fragments, in order.
-/

/-! ## Rows of the BigQuery target and staging tables

A table row is split into its primary-key column `pk`, the watermark
(incremental) column `wm`, and the remaining non-key payload columns
`data`.  The MERGE statement of `BigQueryHandler.merge_staging_to_target`
updates `wm` and `data` (every non-key column) and never touches `pk`. -/

structure BqRow where
  pk : Int
  wm : Int
  data : List Int
deriving DecidableEq

/-- Embeds the `WHEN MATCHED AND T.{inc} < S.{inc} THEN UPDATE SET ...`
clause of the MERGE statement in `BigQueryHandler.merge_staging_to_target`
(`src/bq_handler.py` lines 129-137): a target row `t` that has a staging
row with the same primary key and a strictly greater watermark is
overwritten in every non-key column from that staging row; otherwise it is
returned unchanged.  BigQuery MERGE requires at most one staging row to
match a target row; under that precondition (`Nodup` of staging keys in
the theorems below) `find?` returns exactly that row. -/
def merge_update_row (staging : List BqRow) (t : BqRow) : BqRow :=
  match staging.find? (fun s => s.pk == t.pk) with
  | some s => if t.wm < s.wm then { pk := t.pk, wm := s.wm, data := s.data } else t
  | none => t

/-- Embeds the full MERGE statement of
`BigQueryHandler.merge_staging_to_target`: every target row goes through
the `WHEN MATCHED` clause (`merge_update_row`), and every staging row
whose key matches no target row is inserted in full
(`WHEN NOT MATCHED THEN INSERT`). -/
def merge_staging_to_target (target staging : List BqRow) : List BqRow :=
  target.map (merge_update_row staging) ++
    staging.filter (fun s => !(target.any (fun t => t.pk == s.pk)))

lemma find?_pk_eq_of_nodup (staging : List BqRow) (s : BqRow)
    (hs : (staging.map BqRow.pk).Nodup) (hmem : s ∈ staging) :
    staging.find? (fun x => x.pk == s.pk) = some s := by
  induction staging with
  | nil => cases hmem
  | cons h tl ih =>
    rw [List.map_cons, List.nodup_cons] at hs
    rcases List.mem_cons.mp hmem with rfl | hmem'
    · simp [List.find?]
    · have hne : (h.pk == s.pk) = false := by
        refine beq_eq_false_iff_ne.mpr fun hEq => hs.1 ?_
        exact hEq ▸ List.mem_map_of_mem BqRow.pk hmem'
      rw [List.find?, hne]
      exact ih hs.2 hmem'

lemma find?_ext {α : Type} (l : List α) (p q : α → Bool) (h : ∀ x, p x = q x) :
    l.find? p = l.find? q := by
  induction l with
  | nil => rfl
  | cons a tl ih => rw [List.find?, List.find?, h a]; cases q a <;> simp [ih]

lemma map_eq_self_of_mem {α : Type} (l : List α) (f : α → α)
    (h : ∀ x ∈ l, f x = x) : l.map f = l := by
  induction l with
  | nil => rfl
  | cons a tl ih =>
    rw [List.map_cons, h a (List.mem_cons_self a tl),
      ih fun x hx => h x (List.mem_cons_of_mem a hx)]

lemma filter_eq_nil_of_mem {α : Type} (l : List α) (p : α → Bool)
    (h : ∀ x ∈ l, p x = false) : l.filter p = [] := by
  induction l with
  | nil => rfl
  | cons a tl ih =>
    rw [List.filter_cons, h a (List.mem_cons_self a tl)]
    exact ih fun x hx => h x (List.mem_cons_of_mem a hx)

lemma merge_update_row_pk (staging : List BqRow) (t : BqRow) :
    (merge_update_row staging t).pk = t.pk := by
  unfold merge_update_row
  cases h : staging.find? (fun s => s.pk == t.pk) with
  | none => rfl
  | some s => by_cases hw : t.wm < s.wm <;> simp [hw]

/-- C2: row-level policy of the staging → destination merge.  Under the
BigQuery MERGE precondition that staging keys are distinct: a destination
row matched by a staging row with strictly greater watermark is updated in
every non-key column from staging (the key is kept); a destination row
matched by a staging row whose watermark is ≤ its own (in particular
equal) is left completely unchanged; every (possibly updated) destination
row is in the merge result; and a staging row matching no destination key
is inserted in full. -/
theorem merge_staging_to_target_row_policy (target staging : List BqRow)
    (hs : (staging.map BqRow.pk).Nodup) :
    (∀ t ∈ target, ∀ s ∈ staging, s.pk = t.pk → t.wm < s.wm →
        merge_update_row staging t = { pk := t.pk, wm := s.wm, data := s.data }) ∧
    (∀ t ∈ target, ∀ s ∈ staging, s.pk = t.pk → s.wm ≤ t.wm →
        merge_update_row staging t = t) ∧
    (∀ t ∈ target, merge_update_row staging t ∈ merge_staging_to_target target staging) ∧
    (∀ s ∈ staging, (∀ t ∈ target, t.pk ≠ s.pk) →
        s ∈ merge_staging_to_target target staging) := by
  have hfind : ∀ t : BqRow, ∀ s ∈ staging, s.pk = t.pk →
      staging.find? (fun x => x.pk == t.pk) = some s := by
    intro t s hmem hpk
    rw [find?_ext staging _ (fun x => x.pk == s.pk) (fun x => by rw [hpk])]
    exact find?_pk_eq_of_nodup staging s hs hmem
  refine ⟨?_, ?_, ?_, ?_⟩
  · intro t _ s hmem hpk hlt
    unfold merge_update_row
    rw [hfind t s hmem hpk]
    simp [hlt]
  · intro t _ s hmem hpk hle
    unfold merge_update_row
    rw [hfind t s hmem hpk]
    simp [Int.not_lt.mpr hle]
  · intro t ht
    exact List.mem_append_left _ (List.mem_map_of_mem (merge_update_row staging) ht)
  · intro s hmem hnone
    refine List.mem_append_right _ (List.mem_filter.mpr ⟨hmem, ?_⟩)
    simp only [Bool.not_eq_true']
    refine List.any_eq_false.mpr fun t ht => ?_
    exact fun hc => hnone t ht (eq_of_beq hc)

lemma merge_update_row_fix (staging : List BqRow) (u : BqRow)
    (hfix : ∀ s₀, staging.find? (fun x => x.pk == u.pk) = some s₀ → s₀.wm ≤ u.wm) :
    merge_update_row staging u = u := by
  unfold merge_update_row
  cases h : staging.find? (fun s => s.pk == u.pk) with
  | none => rfl
  | some s₀ => simp [Int.not_lt.mpr (hfix s₀ h)]

lemma merge_update_row_idem (target staging : List BqRow)
    (hs : (staging.map BqRow.pk).Nodup) (u : BqRow)
    (hu : u ∈ merge_staging_to_target target staging) :
    merge_update_row staging u = u := by
  apply merge_update_row_fix
  intro s₀ h₀
  rcases List.mem_append.mp hu with hleft | hright
  · obtain ⟨t, _, hEq⟩ := List.mem_map.mp hleft
    have hpk : u.pk = t.pk := by rw [← hEq]; exact merge_update_row_pk staging t
    have h₀' : staging.find? (fun s => s.pk == t.pk) = some s₀ := by
      rw [find?_ext staging (fun s => s.pk == t.pk) (fun x => x.pk == u.pk)
        (fun x => by rw [hpk])]
      exact h₀
    rw [← hEq]
    unfold merge_update_row
    rw [h₀']
    by_cases hw : t.wm < s₀.wm
    · simp [hw]
    · simp only [if_neg hw]
      exact Int.not_lt.mp hw
  · have hmem : u ∈ staging := (List.mem_filter.mp hright).1
    rw [find?_pk_eq_of_nodup staging u hs hmem] at h₀
    cases h₀
    exact le_refl _

lemma staging_pk_mem_merge (target staging : List BqRow) (s : BqRow)
    (hmem : s ∈ staging) :
    (merge_staging_to_target target staging).any (fun x => x.pk == s.pk) = true := by
  by_cases h : target.any (fun t => t.pk == s.pk)
  · obtain ⟨t, ht, hpk⟩ := List.any_eq_true.mp h
    refine List.any_eq_true.mpr ⟨merge_update_row staging t, ?_, ?_⟩
    · exact List.mem_append_left _ (List.mem_map_of_mem (merge_update_row staging) ht)
    · rw [merge_update_row_pk]; exact hpk
  · refine List.any_eq_true.mpr ⟨s, ?_, by simp⟩
    refine List.mem_append_right _ (List.mem_filter.mpr ⟨hmem, ?_⟩)
    simp only [Bool.not_eq_true']
    exact Bool.eq_false_iff.mpr h

/-- C3: the staging → destination merge is idempotent.  Under the BigQuery
MERGE precondition that staging keys are distinct, re-applying the same
staging batch to the already merged destination changes nothing: every
matched row now fails the strictly-greater watermark test and no staging
key is still unmatched, so no duplicate row is inserted and no value is
reverted. -/
theorem merge_staging_to_target_idempotent (target staging : List BqRow)
    (hs : (staging.map BqRow.pk).Nodup) :
    merge_staging_to_target (merge_staging_to_target target staging) staging
      = merge_staging_to_target target staging := by
  have hmap : (merge_staging_to_target target staging).map (merge_update_row staging)
      = merge_staging_to_target target staging :=
    map_eq_self_of_mem _ _ fun u hu => merge_update_row_idem target staging hs u hu
  have hfil : staging.filter
      (fun s => !((merge_staging_to_target target staging).any (fun t => t.pk == s.pk))) = [] := by
    refine filter_eq_nil_of_mem _ _ fun s hsm => ?_
    rw [staging_pk_mem_merge target staging s hsm]
    rfl
  conv_lhs => rw [merge_staging_to_target, hmap, hfil]
  rw [List.append_nil]

/-- Witness for C2 at the spec's own scenario: destination row
`{id = 7, updated_at = T1, amount = 100}`, staging rows
`{id = 7, updated_at = T1, amount = 999}` (same watermark: row untouched,
amount stays 100) and `{id = 9, updated_at = T2, amount = 5}` (new key:
inserted in full). -/
theorem merge_staging_to_target_row_policy_witness :
    (([⟨7, 1, [999]⟩, ⟨9, 2, [5]⟩] : List BqRow).map BqRow.pk).Nodup ∧
    ((∀ t ∈ ([⟨7, 1, [100]⟩] : List BqRow),
        ∀ s ∈ ([⟨7, 1, [999]⟩, ⟨9, 2, [5]⟩] : List BqRow), s.pk = t.pk → t.wm < s.wm →
        merge_update_row [⟨7, 1, [999]⟩, ⟨9, 2, [5]⟩] t = { pk := t.pk, wm := s.wm, data := s.data }) ∧
    (∀ t ∈ ([⟨7, 1, [100]⟩] : List BqRow),
        ∀ s ∈ ([⟨7, 1, [999]⟩, ⟨9, 2, [5]⟩] : List BqRow), s.pk = t.pk → s.wm ≤ t.wm →
        merge_update_row [⟨7, 1, [999]⟩, ⟨9, 2, [5]⟩] t = t) ∧
    (∀ t ∈ ([⟨7, 1, [100]⟩] : List BqRow),
        merge_update_row [⟨7, 1, [999]⟩, ⟨9, 2, [5]⟩] t
          ∈ merge_staging_to_target [⟨7, 1, [100]⟩] [⟨7, 1, [999]⟩, ⟨9, 2, [5]⟩]) ∧
    (∀ s ∈ ([⟨7, 1, [999]⟩, ⟨9, 2, [5]⟩] : List BqRow),
        (∀ t ∈ ([⟨7, 1, [100]⟩] : List BqRow), t.pk ≠ s.pk) →
        s ∈ merge_staging_to_target [⟨7, 1, [100]⟩] [⟨7, 1, [999]⟩, ⟨9, 2, [5]⟩])) :=
  ⟨by decide, merge_staging_to_target_row_policy [⟨7, 1, [100]⟩] [⟨7, 1, [999]⟩, ⟨9, 2, [5]⟩] (by decide)⟩

/-- Witness for C3 at a concrete batch: one stale duplicate for key 7 and
one fresh row for key 8; applying the merge twice equals applying it
once. -/
theorem merge_staging_to_target_idempotent_witness :
    (([⟨7, 1, [999]⟩, ⟨8, 5, [1]⟩] : List BqRow).map BqRow.pk).Nodup ∧
    merge_staging_to_target
        (merge_staging_to_target [⟨7, 1, [100]⟩] [⟨7, 1, [999]⟩, ⟨8, 5, [1]⟩])
        [⟨7, 1, [999]⟩, ⟨8, 5, [1]⟩]
      = merge_staging_to_target [⟨7, 1, [100]⟩] [⟨7, 1, [999]⟩, ⟨8, 5, [1]⟩] :=
  ⟨by decide, merge_staging_to_target_idempotent [⟨7, 1, [100]⟩] [⟨7, 1, [999]⟩, ⟨8, 5, [1]⟩] (by decide)⟩

/-! ## Schema manager (`src/schema_manager.py`)

`SchemaManager.TYPE_MAPPING`, `mysql_type_to_bigquery` and
`add_missing_columns`.  A BigQuery schema field keeps its name and type;
the source always creates fields with mode `NULLABLE`, so the mode carries
no information and is omitted from `BqField`. -/

/-- Models Python `str.lower()` (ASCII case folding, the only case
relevant to MySQL type strings and the placeholder literals). -/
def lowerString (s : String) : String :=
  String.mk (s.data.map Char.toLower)

def beginsWithList (needle hay : List Char) : Bool :=
  match needle, hay with
  | [], _ => true
  | _ :: _, [] => false
  | a :: as, b :: bs => a == b && beginsWithList as bs

def hasSubList (needle : List Char) : List Char → Bool
  | [] => needle.isEmpty
  | c :: rest => beginsWithList needle (c :: rest) || hasSubList needle rest

/-- Models the Python substring test `needle in hay`. -/
def substrOf (needle hay : String) : Bool :=
  hasSubList needle.toList hay.toList

/-- `SchemaManager.TYPE_MAPPING`, verbatim. -/
def type_mapping : List (String × String) :=
  [("tinyint", "INT64"), ("smallint", "INT64"), ("mediumint", "INT64"),
   ("int", "INT64"), ("bigint", "INT64"), ("float", "FLOAT64"),
   ("double", "FLOAT64"), ("decimal", "NUMERIC"), ("char", "STRING"),
   ("varchar", "STRING"), ("text", "STRING"), ("tinytext", "STRING"),
   ("mediumtext", "STRING"), ("longtext", "STRING"), ("date", "DATE"),
   ("datetime", "TIMESTAMP"), ("timestamp", "TIMESTAMP"), ("time", "TIME"),
   ("year", "INT64"), ("binary", "BYTES"), ("varbinary", "BYTES"),
   ("blob", "BYTES"), ("tinyblob", "BYTES"), ("mediumblob", "BYTES"),
   ("longblob", "BYTES"), ("enum", "STRING"), ("set", "STRING"),
   ("json", "JSON"), ("bool", "BOOL"), ("boolean", "BOOL")]

/-- Embeds `SchemaManager.mysql_type_to_bigquery`: take the base type
before any `(` size specification, lowercase and strip it, drop an
`unsigned` marker, then look it up in `TYPE_MAPPING` with `STRING` as the
fallback for unrecognized types. -/
def mysql_type_to_bigquery (mysqlType : String) : String :=
  let base := (lowerString ((mysqlType.splitOn "(").headD "")).trim
  let base :=
    if substrOf "unsigned" (lowerString mysqlType) then ((base.replace "unsigned" "").trim)
    else base
  (((type_mapping.find? (fun p => p.1 == base)).map (fun p => p.2)).getD "STRING")

structure BqField where
  name : String
  bqType : String
deriving DecidableEq

/-- Embeds the success path of `SchemaManager.add_missing_columns`
(`src/schema_manager.py` lines 155-177).  The Python loop walks the MySQL
schema in order and appends, to the live table schema, one `NULLABLE`
field per column whose name is absent from the names computed from the
schema before the loop; it returns the list of added names.  That loop is
exactly this filter-and-append.  The `except` path returns `([], err)`
and leaves the table untouched; how the orchestrator handles that error
is treated at `sync_table`. -/
def add_missing_columns (schema : List BqField) (mysqlSchema : List (String × String)) :
    List String × List BqField :=
  let existingCols := schema.map (fun f => f.name)
  let newPairs := mysqlSchema.filter (fun p => decide (p.1 ∉ existingCols))
  (newPairs.map (fun p => p.1),
    schema ++ newPairs.map (fun p => { name := p.1, bqType := mysql_type_to_bigquery p.2 }))

lemma add_missing_columns_covers (schema : List BqField) (ms : List (String × String))
    (p : String × String) (hp : p ∈ ms) :
    p.1 ∈ (add_missing_columns schema ms).2.map (fun f => f.name) := by
  simp only [add_missing_columns, List.map_append, List.mem_append, List.map_map]
  by_cases h : p.1 ∈ schema.map (fun f => f.name)
  · exact Or.inl h
  · right
    have hmem : p ∈ ms.filter (fun q => decide (q.1 ∉ schema.map (fun f => f.name))) :=
      List.mem_filter.mpr ⟨hp, by simpa using h⟩
    exact List.mem_map.mpr ⟨p, hmem, rfl⟩

/-- C9: column reconciliation is idempotent and forward-only.  One call
returns exactly the incoming column names absent from the destination
schema; calling it again with the same incoming schema adds nothing and
returns the empty list; the new schema is the old schema extended on the
right, so no existing column is ever removed or retyped; and afterwards
every incoming column name is present in the destination schema. -/
theorem add_missing_columns_idempotent_forward_only
    (schema : List BqField) (ms : List (String × String)) :
    (∀ n, n ∈ (add_missing_columns schema ms).1 ↔
        ∃ ty, (n, ty) ∈ ms ∧ n ∉ schema.map (fun f => f.name)) ∧
    (add_missing_columns (add_missing_columns schema ms).2 ms).1 = [] ∧
    (add_missing_columns (add_missing_columns schema ms).2 ms).2
      = (add_missing_columns schema ms).2 ∧
    (∃ rest, (add_missing_columns schema ms).2 = schema ++ rest) ∧
    (∀ p ∈ ms, p.1 ∈ (add_missing_columns schema ms).2.map (fun f => f.name)) := by
  have hnil : ms.filter
      (fun p => decide (p.1 ∉ (add_missing_columns schema ms).2.map (fun f => f.name))) = [] := by
    refine filter_eq_nil_of_mem _ _ fun p hp => ?_
    exact decide_eq_false (not_not_intro (add_missing_columns_covers schema ms p hp))
  refine ⟨?_, ?_, ?_, ⟨_, rfl⟩, fun p hp => add_missing_columns_covers schema ms p hp⟩
  · intro n
    simp only [add_missing_columns, List.mem_map, List.mem_filter, decide_eq_true_eq]
    constructor
    · rintro ⟨⟨pn, pty⟩, ⟨hpm, hnotin⟩, rfl⟩
      exact ⟨pty, hpm, hnotin⟩
    · rintro ⟨ty, hmem, hnot⟩
      exact ⟨(n, ty), ⟨hmem, hnot⟩, rfl⟩
  · show (ms.filter _).map _ = []
    rw [hnil]
    rfl
  · show _ ++ (ms.filter _).map _ = _
    rw [hnil]
    simp

/-! ## DataFrame preparation (`SchemaManager.prepare_dataframe_with_schema`)

A DataFrame cell is null, a string, or a number (modelled as `Rat`, which
covers both the `Int64` and `float64` destinations).  The integer and
float/decimal branches of `prepare_dataframe_with_schema`
(`src/schema_manager.py` lines 207-223) first replace the placeholder
strings of the literal list `['', ' ', 'NULL', 'null', 'None']` by null,
then run `pd.to_numeric(errors='coerce')`, which turns every remaining
unparseable value into null.  `pd.to_numeric` numeric-literal parsing is
modelled as an optional sign followed by a decimal literal, with
surrounding whitespace stripped; scientific notation is not modelled.
The datetime/date/boolean branches of the Python function are not
modelled: no claim mentions them and `prepare_column` is only applied to
numeric columns below. -/

inductive Cell where
  | null : Cell
  | str : String → Cell
  | num : Rat → Cell
deriving DecidableEq

/-- Models the whitespace stripped by Python `str.strip` inside
`pd.to_numeric`. -/
def isSpaceLike (c : Char) : Bool :=
  c == ' ' || c == '\t' || c == '\n' || c == '\r'

def trimChars (cs : List Char) : List Char :=
  ((cs.dropWhile isSpaceLike).reverse.dropWhile isSpaceLike).reverse

def splitOnDot : List Char → List (List Char)
  | [] => [[]]
  | c :: rest =>
    match splitOnDot rest with
    | [] => [[c]]
    | g :: gs => if c == '.' then [] :: g :: gs else (c :: g) :: gs

/-- The value of a nonempty all-digit character list; `none` otherwise. -/
def digitsToNat? (cs : List Char) : Option Nat :=
  if cs.isEmpty then none
  else if cs.all Char.isDigit then
    some (cs.foldl (fun acc c => 10 * acc + (c.toNat - 48)) 0)
  else none

def parseDecimalChars (cs : List Char) : Option Rat :=
  let t := trimChars cs
  let sgn : Rat := if t.head? = some '-' then -1 else 1
  let u := if t.head? = some '-' || t.head? = some '+' then t.tail else t
  match splitOnDot u with
  | [a] => (digitsToNat? a).map (fun n => sgn * (n : Rat))
  | [a, b] =>
    if a.isEmpty && b.isEmpty then none
    else if (a.isEmpty || (digitsToNat? a).isSome)
        && (b.isEmpty || (digitsToNat? b).isSome) then
      some (sgn * ((((digitsToNat? a).getD 0 : Nat) : Rat)
        + (((digitsToNat? b).getD 0 : Nat) : Rat) / (10 : Rat) ^ b.length))
    else none
  | _ => none

/-- Model of the number parsing done by `pd.to_numeric`. -/
def parseDecimal (s : String) : Option Rat :=
  parseDecimalChars s.toList

/-- The literal replacement list of the numeric branches:
`df[col].replace(['', ' ', 'NULL', 'null', 'None'], None)`. -/
def numeric_placeholders : List String := ["", " ", "NULL", "null", "None"]

def replace_placeholders (c : Cell) : Cell :=
  match c with
  | Cell.str s => if s ∈ numeric_placeholders then Cell.null else Cell.str s
  | c => c

/-- Models `pd.to_numeric(df[col], errors='coerce')` on one cell: numbers
and nulls pass through, strings parse to a number or coerce to null. -/
def to_numeric_coerce (c : Cell) : Cell :=
  match c with
  | Cell.str s =>
    match parseDecimal s with
    | some q => Cell.num q
    | none => Cell.null
  | c => c

/-- One cell of a numeric column through the integer/float branch body of
`prepare_dataframe_with_schema`: placeholder replacement, then coercing
numeric parse. -/
def prepare_numeric_cell (c : Cell) : Cell :=
  to_numeric_coerce (replace_placeholders c)

def is_int_family (ty : String) : Bool :=
  (["int", "bigint", "smallint", "tinyint", "mediumint"].any fun k => substrOf k ty)

def is_float_family (ty : String) : Bool :=
  (["float", "double", "decimal"].any fun k => substrOf k ty)

/-- The per-column dispatch of `prepare_dataframe_with_schema`, restricted
to the numeric branches (see the section comment). -/
def prepare_column (mysqlType : String) (col : List Cell) : List Cell :=
  let ty := lowerString mysqlType
  if is_int_family ty then col.map prepare_numeric_cell
  else if is_float_family ty then col.map prepare_numeric_cell
  else col

lemma dropWhile_eq_nil_of_all {α : Type} (p : α → Bool) (cs : List α)
    (h : ∀ c ∈ cs, p c = true) : cs.dropWhile p = [] := by
  induction cs with
  | nil => rfl
  | cons a tl ih =>
    rw [List.dropWhile_cons, h a (List.mem_cons_self a tl), if_pos rfl]
    exact ih fun c hc => h c (List.mem_cons_of_mem a hc)

lemma trimChars_all_space (cs : List Char) (h : cs.all isSpaceLike = true) :
    trimChars cs = [] := by
  unfold trimChars
  rw [dropWhile_eq_nil_of_all isSpaceLike cs (List.all_eq_true.mp h)]
  rfl

/-- C8: numeric columns null out placeholders and unparseable values.  For
a column whose MySQL type is in the integer or float/double/decimal
families, preparation maps `prepare_numeric_cell` over the column; the
placeholder strings of the source's replacement list are nulled before
parsing; any all-whitespace string and any string the number parser
rejects becomes null instead of an error; in particular every case
variant of "null"/"none" ends up null. -/
theorem prepare_numeric_column_nulls (mysqlType : String) (col : List Cell)
    (hty : is_int_family (lowerString mysqlType) = true ∨
      is_float_family (lowerString mysqlType) = true) :
    prepare_column mysqlType col = col.map prepare_numeric_cell ∧
    (∀ s ∈ numeric_placeholders, replace_placeholders (Cell.str s) = Cell.null) ∧
    (∀ s : String, s.toList.all isSpaceLike = true →
        prepare_numeric_cell (Cell.str s) = Cell.null) ∧
    (∀ s : String, parseDecimal s = none →
        prepare_numeric_cell (Cell.str s) = Cell.null) ∧
    (∀ s ∈ (["NULL", "null", "Null", "NONE", "None", "none"] : List String),
        prepare_numeric_cell (Cell.str s) = Cell.null) := by
  refine ⟨?_, by decide, ?_, ?_, by decide⟩
  · rcases hty with h | h
    · simp [prepare_column, h]
    · by_cases h2 : is_int_family (lowerString mysqlType) <;> simp [prepare_column, h, h2]
  · intro s h
    by_cases hs : s ∈ numeric_placeholders
    · simp [prepare_numeric_cell, replace_placeholders, hs, to_numeric_coerce]
    · have hp : parseDecimal s = none := by
        unfold parseDecimal parseDecimalChars
        rw [trimChars_all_space s.toList h]
        rfl
      simp [prepare_numeric_cell, replace_placeholders, hs, to_numeric_coerce, hp]
  · intro s h
    by_cases hs : s ∈ numeric_placeholders
    · simp [prepare_numeric_cell, replace_placeholders, hs, to_numeric_coerce]
    · simp [prepare_numeric_cell, replace_placeholders, hs, to_numeric_coerce, h]

/-- Witness for C8 on a decimal-typed column holding a placeholder, an
unparseable string, a parseable string and a number. -/
theorem prepare_numeric_column_nulls_witness :
    (is_int_family (lowerString "decimal(10,2)") = true ∨
      is_float_family (lowerString "decimal(10,2)") = true) ∧
    (prepare_column "decimal(10,2)" [Cell.str "NULL", Cell.str "abc", Cell.str "12.5", Cell.num 7]
        = [Cell.str "NULL", Cell.str "abc", Cell.str "12.5", Cell.num 7].map prepare_numeric_cell ∧
    (∀ s ∈ numeric_placeholders, replace_placeholders (Cell.str s) = Cell.null) ∧
    (∀ s : String, s.toList.all isSpaceLike = true →
        prepare_numeric_cell (Cell.str s) = Cell.null) ∧
    (∀ s : String, parseDecimal s = none →
        prepare_numeric_cell (Cell.str s) = Cell.null) ∧
    (∀ s ∈ (["NULL", "null", "Null", "NONE", "None", "none"] : List String),
        prepare_numeric_cell (Cell.str s) = Cell.null)) :=
  ⟨Or.inr (by decide),
    prepare_numeric_column_nulls "decimal(10,2)"
      [Cell.str "NULL", Cell.str "abc", Cell.str "12.5", Cell.num 7] (Or.inr (by decide))⟩

/-! ## Sync ledger (`src/metadata_manager.py`)

One `LedgerRow` per row of the metadata table (the MERGE in
`update_metadata` keeps at most one row per table name).  `remark` is the
fragment-list model of the stored remark string. -/

inductive SyncStatus where
  | success : SyncStatus
  | failed : SyncStatus
deriving DecidableEq, Inhabited

structure LedgerRow where
  tableName : String
  lastRunTime : Int
  lastSyncTime : Int
  status : SyncStatus
  rowCount : Nat
  columnCount : Nat
  remark : List String
deriving DecidableEq

/-- The fixed epoch sentinel `datetime(1970, 1, 1)`, i.e.
1970-01-01T00:00:00, as seconds since the epoch. -/
def epochSentinel : Int := 0

def maxListD (d : Int) : List Int → Int
  | [] => d
  | x :: xs => xs.foldl max x

/-- The rows selected by the query in `MetadataManager.get_last_sync_time`:
`WHERE table_name = t AND status = SUCCESS`. -/
def success_rows (L : List LedgerRow) (t : String) : List LedgerRow :=
  L.filter (fun r => r.tableName == t && r.status == SyncStatus.success)

/-- Embeds the query of `MetadataManager.get_last_sync_time`
(`src/metadata_manager.py` lines 86-97): `ORDER BY last_sync_time DESC
LIMIT 1` over the selected rows is their maximum `last_sync_time`; the
epoch sentinel is returned when no row matches. -/
def get_last_sync_time (L : List LedgerRow) (t : String) : Int :=
  maxListD epochSentinel ((success_rows L t).map (fun r => r.lastSyncTime))

/-- `MetadataManager.get_last_sync_time` including its `try/except`
(lines 95-99): a failing ledger read yields the epoch sentinel instead of
raising. -/
def get_last_sync_time_safe (res : Except String (List LedgerRow)) (t : String) : Int :=
  match res with
  | Except.error _ => epochSentinel
  | Except.ok L => get_last_sync_time L t

/-- Embeds the MERGE upsert of `MetadataManager.update_metadata`
(`src/metadata_manager.py` lines 132-199).  The source row stores the
given sync time when the run succeeded with one (`if sync_time and
status == 'SUCCESS'`); otherwise `last_sync_time` is COALESCEd from the
existing row for this table (epoch if none).  `WHEN MATCHED` overwrites
every field of the single row with this table name; `WHEN NOT MATCHED`
inserts the row. -/
def update_metadata (L : List LedgerRow) (tableName : String) (runTime : Int)
    (syncTime : Option Int) (status : SyncStatus) (rowCount columnCount : Nat)
    (remark : List String) : List LedgerRow :=
  let lastSync : Int :=
    match syncTime, status with
    | some v, SyncStatus.success => v
    | _, _ =>
      match L.find? (fun r => r.tableName == tableName) with
      | some r => r.lastSyncTime
      | none => epochSentinel
  let row : LedgerRow :=
    ⟨tableName, runTime, lastSync, status, rowCount, columnCount, remark⟩
  if L.any (fun r => r.tableName == tableName) then
    L.map (fun r => if r.tableName == tableName then row else r)
  else L ++ [row]

lemma foldl_max_const (c : Int) (xs : List Int) (h : ∀ y ∈ xs, y = c) :
    xs.foldl max c = c := by
  induction xs with
  | nil => rfl
  | cons a tl ih =>
    rw [List.foldl_cons, h a (List.mem_cons_self a tl), max_self]
    exact ih fun y hy => h y (List.mem_cons_of_mem a hy)

lemma maxListD_all_eq (d c : Int) (l : List Int) (hne : l ≠ [])
    (h : ∀ x ∈ l, x = c) : maxListD d l = c := by
  match l, hne with
  | x :: xs, _ =>
    rw [maxListD, h x (List.mem_cons_self x xs)]
    exact foldl_max_const c xs fun y hy => h y (List.mem_cons_of_mem x hy)

/-- C6: the watermark lookup returns the stored last-success watermark of
the ledger entry for the table whose status is SUCCESS (the ledger keeps
at most one entry per table, expressed here as the uniqueness premise),
and returns the epoch sentinel 1970-01-01T00:00:00 when no SUCCESS entry
for the table exists. -/
theorem get_last_sync_time_spec (L : List LedgerRow) (t : String) :
    ((∀ r ∈ L, r.tableName = t → r.status ≠ SyncStatus.success) →
      get_last_sync_time L t = epochSentinel) ∧
    (∀ r ∈ L, r.tableName = t → r.status = SyncStatus.success →
      (∀ r' ∈ L, r'.tableName = t → r'.status = SyncStatus.success → r' = r) →
      get_last_sync_time L t = r.lastSyncTime) := by
  constructor
  · intro h
    have hnil : success_rows L t = [] := by
      refine filter_eq_nil_of_mem _ _ fun r hr => ?_
      by_cases hn : r.tableName = t
      · have hne := h r hr hn
        simp [hn]
        exact hne
      · simp [hn]
    unfold get_last_sync_time
    rw [hnil]
    rfl
  · intro r hr hn hsucc huniq
    have hmem : r ∈ success_rows L t :=
      List.mem_filter.mpr ⟨hr, by simp [hn, hsucc]⟩
    have hall : ∀ v ∈ (success_rows L t).map (fun x => x.lastSyncTime),
        v = r.lastSyncTime := by
      intro v hv
      obtain ⟨r', hr', rfl⟩ := List.mem_map.mp hv
      obtain ⟨hr'L, hpred⟩ := List.mem_filter.mp hr'
      rw [Bool.and_eq_true, beq_iff_eq, beq_iff_eq] at hpred
      rw [huniq r' hr'L hpred.1 hpred.2]
    have hne : (success_rows L t).map (fun x => x.lastSyncTime) ≠ [] := by
      intro hEq
      have := List.mem_map_of_mem (fun x => x.lastSyncTime) hmem
      rw [hEq] at this
      cases this
    exact maxListD_all_eq epochSentinel r.lastSyncTime _ hne hall

/-- Witness for C6: a two-row ledger; the SUCCESS entry of `users` is
returned, and `orders` (whose only entry is FAILED) falls back to the
epoch sentinel. -/
theorem get_last_sync_time_spec_witness :
    get_last_sync_time
        [⟨"users", 5, 42, SyncStatus.success, 1, 2, []⟩,
         ⟨"orders", 5, 9, SyncStatus.failed, 0, 0, []⟩] "users" = 42 ∧
    get_last_sync_time
        [⟨"users", 5, 42, SyncStatus.success, 1, 2, []⟩,
         ⟨"orders", 5, 9, SyncStatus.failed, 0, 0, []⟩] "orders" = epochSentinel :=
  ⟨(get_last_sync_time_spec
        [⟨"users", 5, 42, SyncStatus.success, 1, 2, []⟩,
         ⟨"orders", 5, 9, SyncStatus.failed, 0, 0, []⟩] "users").2
      ⟨"users", 5, 42, SyncStatus.success, 1, 2, []⟩ (by decide) rfl rfl (by decide),
    (get_last_sync_time_spec
        [⟨"users", 5, 42, SyncStatus.success, 1, 2, []⟩,
         ⟨"orders", 5, 9, SyncStatus.failed, 0, 0, []⟩] "orders").1 (by decide)⟩

/-! ## Orchestrator (`src/sync_orchestrator.py`)

`sync_table` sequences the component calls of
`SyncOrchestrator.sync_table`; `run_sync_pipeline` iterates the
configured tables and upserts the ledger after each, as
`SyncOrchestrator.run_sync_pipeline` does.

A `TableEnv` fixes the outcome of every external call a single table run
makes: the raw exception string of each call that can raise or return an
error (`none` when the call succeeds), the contents of the MySQL source
table (`sourceRows`, as the values of the watermark column — the only row
content the orchestrator inspects), the result of the MySQL `DESCRIBE`,
and the column names a successful BigQuery-side `add_missing_columns`
reports.  The `try/except` blocks of the Python code are modelled by
these calls returning error values: `sync_table` is a total function and
never propagates a failure to its caller.  `prepare_dataframe_with_schema`
(called between extraction and load) is value-preserving on the watermark
column of rows freshly read from MySQL and is therefore the identity in
this row model; `setup_metadata_table` and the notification calls do not
change any ledger row and are omitted. -/

structure TableCfg where
  mysqlTable : String
  bqTable : String
deriving DecidableEq, Inhabited

structure TableEnv where
  runTime : Int
  schemaErr : Option String
  mysqlSchema : List (String × String)
  targetExists : Bool
  createErr : Option String
  addColsTargetErr : Option String
  addColsTargetNew : List String
  ledgerReadErr : Option String
  extractErr : Option String
  sourceRows : List Int
  ensureStagingErr : Option String
  addColsStagingErr : Option String
  loadErr : Option String
  mergeErr : Option String
deriving DecidableEq, Inhabited

/-- `MySQLExtractor.get_table_schema`: the schema, or the error string it
returns on any exception. -/
def get_table_schema_call (env : TableEnv) : Except String (List (String × String)) :=
  match env.schemaErr with
  | some e => Except.error ("Failed to fetch MySQL schema: " ++ e)
  | none => Except.ok env.mysqlSchema

/-- `MySQLExtractor.extract_incremental_data`: the rows of the source
table whose watermark strictly exceeds `lastSynced`
(`SELECT * FROM t WHERE inc > %s`), or the error string the extractor
returns on any exception. -/
def extract_incremental_data_call (env : TableEnv) (lastSynced : Int) :
    Except String (List Int) :=
  match env.extractErr with
  | some e => Except.error ("MySQL extraction failed: " ++ e)
  | none => Except.ok (env.sourceRows.filter (fun w => lastSynced < w))

/-- `SchemaManager.create_table_from_mysql_schema` outcome. -/
def create_table_call (env : TableEnv) : Except String Unit :=
  match env.createErr with
  | some e => Except.error ("Failed to create table: " ++ e)
  | none => Except.ok ()

/-- `SchemaManager.add_missing_columns` against the live BigQuery target:
`(new_columns, error)`; the error path returns an empty column list. -/
def add_missing_columns_target_call (env : TableEnv) : List String × Option String :=
  match env.addColsTargetErr with
  | some e => ([], some ("Failed to add columns: " ++ e))
  | none => (env.addColsTargetNew, none)

/-- `BigQueryHandler.ensure_staging_table` error outcome. -/
def ensure_staging_table_call (env : TableEnv) : Option String :=
  match env.ensureStagingErr with
  | some e => some ("Failed to ensure staging table: " ++ e)
  | none => none

/-- `BigQueryHandler.load_to_staging` (`src/bq_handler.py` lines 64-82):
an empty DataFrame is a no-op returning `(0, None)` before any BigQuery
call; otherwise the load job either fails or returns the row count. -/
def load_to_staging_call (env : TableEnv) (df : List Int) : Nat × Option String :=
  if df.isEmpty then (0, none)
  else
    match env.loadErr with
    | some e => (0, some ("Failed to load to staging: " ++ e))
    | none => (df.length, none)

/-- The `(message, error)` outcome of
`BigQueryHandler.merge_staging_to_target` (lines 111-147): an empty
DataFrame returns `"No new or updated rows"` before any BigQuery call;
otherwise the merge job either fails or reports success. -/
def merge_staging_to_target_call (env : TableEnv) (df : List Int) :
    String × Option String :=
  if df.isEmpty then ("No new or updated rows", none)
  else
    match env.mergeErr with
    | some e => ("", some ("Merge failed: " ++ e))
    | none => ("Merge completed successfully", none)

/-- The ledger read performed inside `get_last_sync_time`. -/
def ledger_read_call (env : TableEnv) (ledger : List LedgerRow) :
    Except String (List LedgerRow) :=
  match env.ledgerReadErr with
  | some e => Except.error e
  | none => Except.ok ledger

/-- The per-table outcome dictionary of `SyncOrchestrator.sync_table`
(its `sync_time` entry is only forwarded to notifications and is
omitted). -/
structure SyncResult where
  table : String
  status : SyncStatus
  runTime : Int
  rowCount : Nat
  columnCount : Nat
  newColumns : List String
  remark : List String
  lastSyncedValue : Option Int
deriving DecidableEq, Inhabited

/-- Body of `SyncOrchestrator.sync_table` (`src/sync_orchestrator.py`
lines 56-197) given the already computed watermark `lastSynced`: MySQL
schema fetch, target existence check and creation, target column
addition (an error here only appends a warning to the remark), extraction
since `lastSynced`, staging table creation, staging column addition
(warning only), load, merge; any failing step returns the FAILED result
with the step's message appended to the remark; on success
`last_synced_value` is the maximum extracted watermark, or `lastSynced`
itself when no row was extracted.  `column_count` is initialized to 0 and
never updated by the source. -/
def sync_table_aux (cfg : TableCfg) (env : TableEnv) (lastSynced : Int) : SyncResult :=
  let base : SyncResult :=
    { table := cfg.mysqlTable, status := SyncStatus.failed, runTime := env.runTime,
      rowCount := 0, columnCount := 0, newColumns := [], remark := [],
      lastSyncedValue := none }
  match get_table_schema_call env with
  | Except.error e => { base with remark := ["Failed to get MySQL schema: " ++ e] }
  | Except.ok _ =>
    let createStep : Except (List String) (List String) :=
      if env.targetExists then Except.ok []
      else
        match create_table_call env with
        | Except.error e => Except.error ["Failed to create table: " ++ e]
        | Except.ok _ => Except.ok ["Table created from MySQL schema. "]
    match createStep with
    | Except.error r => { base with remark := r }
    | Except.ok remark0 =>
      let addRes := add_missing_columns_target_call env
      let remark1 :=
        match addRes.2 with
        | some e => remark0 ++ ["Column addition warning: " ++ e ++ ". "]
        | none =>
          if addRes.1.isEmpty then remark0
          else remark0 ++ ["Added columns: " ++ String.intercalate ", " addRes.1 ++ ". "]
      let newColumns :=
        match addRes.2 with
        | some _ => []
        | none => addRes.1
      match extract_incremental_data_call env lastSynced with
      | Except.error e =>
        { base with
          remark := remark1 ++ ["MySQL extraction failed: " ++ e],
          newColumns := newColumns }
      | Except.ok df =>
        match ensure_staging_table_call env with
        | some e =>
          { base with
            remark := remark1 ++ ["Staging table error: " ++ e],
            newColumns := newColumns }
        | none =>
          let remark2 :=
            match env.addColsStagingErr with
            | some e => remark1 ++
                ["Staging schema update warning: " ++ ("Failed to add columns: " ++ e) ++ ". "]
            | none => remark1
          let loadRes := load_to_staging_call env df
          match loadRes.2 with
          | some e =>
            { base with
              remark := remark2 ++ ["Load to staging failed: " ++ e],
              newColumns := newColumns }
          | none =>
            let mergeRes := merge_staging_to_target_call env df
            match mergeRes.2 with
            | some e =>
              { base with
                remark := remark2 ++ ["Merge failed: " ++ e],
                newColumns := newColumns,
                rowCount := loadRes.1 }
            | none =>
              { base with
                status := SyncStatus.success,
                remark := remark2 ++ [mergeRes.1],
                newColumns := newColumns,
                rowCount := loadRes.1,
                lastSyncedValue :=
                  some (if df.isEmpty then lastSynced else maxListD 0 df) }

/-- `SyncOrchestrator.sync_table`: the watermark is looked up through
`MetadataManager.get_last_sync_time` (which swallows read errors into the
epoch sentinel), then the run proceeds as `sync_table_aux`. -/
def sync_table (cfg : TableCfg) (env : TableEnv) (ledger : List LedgerRow) : SyncResult :=
  sync_table_aux cfg env
    (get_last_sync_time_safe (ledger_read_call env ledger) cfg.bqTable)

/-- `SyncOrchestrator.run_sync_pipeline` (lines 199-241): sync each
configured table in order; after each table, store its
`last_synced_value` in the ledger when the run succeeded with one
(`None` otherwise, which makes `update_metadata` keep the previous
stored value), via `update_metadata` keyed by the table's BigQuery
name. -/
def run_sync_pipeline (ledger : List LedgerRow) :
    List (TableCfg × TableEnv) → List SyncResult × List LedgerRow
  | [] => ([], ledger)
  | (cfg, env) :: rest =>
    let r := sync_table cfg env ledger
    let store : Option Int :=
      if r.status == SyncStatus.success && r.lastSyncedValue.isSome
      then r.lastSyncedValue else none
    let ledger' := update_metadata ledger cfg.bqTable r.runTime store r.status
      r.rowCount r.columnCount r.remark
    let next := run_sync_pipeline ledger' rest
    (r :: next.1, next.2)

/-- C1: the stored watermark can move backwards.  Failing input: the
ledger holds the single entry `(orders, status = FAILED,
last_sync_time = 100)` preserved by an earlier failed run, and the next
run extracts zero rows with every component call succeeding.  The run
ends SUCCESS, yet the stored watermark is overwritten with the epoch
sentinel 0 < 100: `get_last_sync_time` only sees SUCCESS entries, so the
run uses (and then stores) the epoch instead of the preserved
watermark. -/
theorem run_sync_pipeline_watermark_regression :
    (let L0 : List LedgerRow := [⟨"orders", 0, 100, SyncStatus.failed, 0, 0, []⟩]
    let env : TableEnv :=
      { runTime := 200, schemaErr := none,
        mysqlSchema := [("id", "int"), ("updated_at", "datetime")],
        targetExists := true, createErr := none, addColsTargetErr := none,
        addColsTargetNew := [], ledgerReadErr := none, extractErr := none,
        sourceRows := [], ensureStagingErr := none, addColsStagingErr := none,
        loadErr := none, mergeErr := none }
    ((L0.find? (fun r => r.tableName == "orders")).map fun r => r.lastSyncTime)
        = some 100 ∧
    ((run_sync_pipeline L0 [(⟨"orders", "orders"⟩, env)]).1.map fun r => r.status)
        = [SyncStatus.success] ∧
    (((run_sync_pipeline L0 [(⟨"orders", "orders"⟩, env)]).2.find?
        (fun r => r.tableName == "orders")).map fun r => r.lastSyncTime)
        = some 0) := by decide

/-- C5: a zero-row extraction is a SUCCESS no-op for load and merge, but
the stored watermark is not always unchanged.  With the prior ledger
entry `(users, status = FAILED, last_sync_time = 7)` and an all-success
run extracting zero rows: load returns `(0, none)` and merge returns the
no-op message without touching BigQuery, the run is SUCCESS with
row_count 0, yet the stored watermark changes from 7 to the epoch 0. -/
theorem empty_extraction_run_resets_watermark :
    (let L0 : List LedgerRow := [⟨"users", 0, 7, SyncStatus.failed, 0, 0, []⟩]
    let env : TableEnv :=
      { runTime := 300, schemaErr := none,
        mysqlSchema := [("id", "int"), ("updated_at", "datetime")],
        targetExists := true, createErr := none, addColsTargetErr := none,
        addColsTargetNew := [], ledgerReadErr := none, extractErr := none,
        sourceRows := [], ensureStagingErr := none, addColsStagingErr := none,
        loadErr := none, mergeErr := none }
    load_to_staging_call env [] = (0, none) ∧
    merge_staging_to_target_call env [] = ("No new or updated rows", none) ∧
    ((run_sync_pipeline L0 [(⟨"users", "users"⟩, env)]).1.map fun r => r.rowCount)
        = [0] ∧
    ((run_sync_pipeline L0 [(⟨"users", "users"⟩, env)]).1.map fun r => r.status)
        = [SyncStatus.success] ∧
    ((L0.find? (fun r => r.tableName == "users")).map fun r => r.lastSyncTime)
        = some 7 ∧
    (((run_sync_pipeline L0 [(⟨"users", "users"⟩, env)]).2.find?
        (fun r => r.tableName == "users")).map fun r => r.lastSyncTime)
        = some 0) := by decide

/-- C10: the watermark lookup never raises — every ledger read failure is
swallowed into the epoch sentinel, and under a ledger read error the
table's run proceeds exactly as a run whose extraction window starts at
the epoch (full re-extraction), with the same status as that run rather
than a failure caused by the read error. -/
theorem get_last_sync_time_swallows_errors :
    (∀ (e t : String), get_last_sync_time_safe (Except.error e) t = epochSentinel) ∧
    (∀ (cfg : TableCfg) (env : TableEnv) (L : List LedgerRow) (e : String),
      env.ledgerReadErr = some e →
      sync_table cfg env L = sync_table_aux cfg env epochSentinel) := by
  constructor
  · intro e t
    rfl
  · intro cfg env L e h
    unfold sync_table ledger_read_call
    rw [h]
    rfl

/-- Witness for C10: a concrete read error yields the epoch, and a run
with a failing ledger read equals the epoch-window run even though the
ledger holds a SUCCESS entry with watermark 100. -/
theorem get_last_sync_time_swallows_errors_witness :
    get_last_sync_time_safe (Except.error "connection reset") "orders" = epochSentinel ∧
    sync_table ⟨"orders", "orders"⟩
        { runTime := 20, schemaErr := none, mysqlSchema := [("id", "int")],
          targetExists := true, createErr := none, addColsTargetErr := none,
          addColsTargetNew := [], ledgerReadErr := some "connection reset",
          extractErr := none, sourceRows := [3], ensureStagingErr := none,
          addColsStagingErr := none, loadErr := none, mergeErr := none }
        [⟨"orders", 0, 100, SyncStatus.success, 1, 1, []⟩]
      = sync_table_aux ⟨"orders", "orders"⟩
        { runTime := 20, schemaErr := none, mysqlSchema := [("id", "int")],
          targetExists := true, createErr := none, addColsTargetErr := none,
          addColsTargetNew := [], ledgerReadErr := some "connection reset",
          extractErr := none, sourceRows := [3], ensureStagingErr := none,
          addColsStagingErr := none, loadErr := none, mergeErr := none }
        epochSentinel :=
  ⟨get_last_sync_time_swallows_errors.1 "connection reset" "orders",
    get_last_sync_time_swallows_errors.2 ⟨"orders", "orders"⟩ _
      [⟨"orders", 0, 100, SyncStatus.success, 1, 1, []⟩] "connection reset" rfl⟩

/-- C7 counterexample: a run in which schema reconciliation
(`add_missing_columns` on the target) returns an error is NOT marked
FAILED; it proceeds through extraction, load and merge and ends SUCCESS
(here with one row loaded), the error only being recorded as a warning in
the remark. -/
theorem add_missing_columns_error_still_success :
    (let env : TableEnv :=
      { runTime := 10, schemaErr := none, mysqlSchema := [("id", "int")],
        targetExists := true, createErr := none,
        addColsTargetErr := some "alter failed", addColsTargetNew := [],
        ledgerReadErr := none, extractErr := none, sourceRows := [5],
        ensureStagingErr := none, addColsStagingErr := none, loadErr := none,
        mergeErr := none }
    (sync_table ⟨"orders", "orders"⟩ env []).status = SyncStatus.success ∧
    (sync_table ⟨"orders", "orders"⟩ env []).rowCount = 1 ∧
    ("Column addition warning: " ++ ("Failed to add columns: " ++ "alter failed") ++ ". ")
        ∈ (sync_table ⟨"orders", "orders"⟩ env []).remark) := by decide

lemma sync_table_aux_addcols_error (cfg : TableCfg) (env : TableEnv) (w : Int)
    (e : String) (h1 : env.schemaErr = none) (h2 : env.targetExists = true)
    (h3 : env.addColsTargetErr = some e) :
    ("Column addition warning: " ++ ("Failed to add columns: " ++ e) ++ ". ")
        ∈ (sync_table_aux cfg env w).remark ∧
    ((sync_table_aux cfg env w).status = SyncStatus.success ↔
      env.extractErr = none ∧ env.ensureStagingErr = none ∧
      (env.sourceRows.filter (fun x => w < x) = [] ∨
        (env.loadErr = none ∧ env.mergeErr = none))) := by
  unfold sync_table_aux get_table_schema_call create_table_call
    add_missing_columns_target_call extract_incremental_data_call
    ensure_staging_table_call load_to_staging_call merge_staging_to_target_call
  rw [h1, h2, h3]
  cases hx : env.extractErr with
  | some x => simp [hx]
  | none =>
    cases hst : env.ensureStagingErr with
    | some y => simp [hst]
    | none =>
      by_cases hdf : env.sourceRows.filter (fun x => w < x) = []
      · cases hsc : env.addColsStagingErr <;>
          simp [hdf, List.isEmpty_iff.mpr hdf]
      · have hdf' : (env.sourceRows.filter (fun x => w < x)).isEmpty = false := by
          rw [List.isEmpty_eq_false_iff_exists_mem]
          rcases List.exists_mem_of_ne_nil _ hdf with ⟨a, ha⟩
          exact ⟨a, ha⟩
        cases hl : env.loadErr with
        | some z => cases hsc : env.addColsStagingErr <;> simp [hdf, hdf', hl]
        | none =>
          cases hm : env.mergeErr with
          | some u => cases hsc : env.addColsStagingErr <;> simp [hdf, hdf', hl, hm]
          | none => cases hsc : env.addColsStagingErr <;> simp [hdf, hdf', hl, hm]

/-- C7 (amended): when schema reconciliation on the destination returns
an error, `sync_table` records the error in the remark as a column
addition warning and proceeds; the run is not marked FAILED because of
it — its status is SUCCESS exactly when the remaining steps (extraction,
staging table creation, and load+merge when rows were extracted)
succeed. -/
theorem sync_table_addcols_error_warns_and_proceeds
    (cfg : TableCfg) (env : TableEnv) (L : List LedgerRow) (e : String)
    (h1 : env.schemaErr = none) (h2 : env.targetExists = true)
    (h3 : env.addColsTargetErr = some e) :
    ("Column addition warning: " ++ ("Failed to add columns: " ++ e) ++ ". ")
        ∈ (sync_table cfg env L).remark ∧
    ((sync_table cfg env L).status = SyncStatus.success ↔
      env.extractErr = none ∧ env.ensureStagingErr = none ∧
      (env.sourceRows.filter
          (fun x => get_last_sync_time_safe (ledger_read_call env L) cfg.bqTable < x) = [] ∨
        (env.loadErr = none ∧ env.mergeErr = none))) :=
  sync_table_aux_addcols_error cfg env
    (get_last_sync_time_safe (ledger_read_call env L) cfg.bqTable) e h1 h2 h3

/-- Witness for C7 (amended claim): concrete run with a failing target
column addition whose remaining steps all succeed. -/
theorem sync_table_addcols_error_warns_and_proceeds_witness :
    (let env : TableEnv :=
      { runTime := 10, schemaErr := none, mysqlSchema := [("id", "int")],
        targetExists := true, createErr := none,
        addColsTargetErr := some "alter failed", addColsTargetNew := [],
        ledgerReadErr := none, extractErr := none, sourceRows := [5],
        ensureStagingErr := none, addColsStagingErr := none, loadErr := none,
        mergeErr := none }
    ("Column addition warning: " ++ ("Failed to add columns: " ++ "alter failed") ++ ". ")
        ∈ (sync_table ⟨"orders", "orders"⟩ env []).remark ∧
    ((sync_table ⟨"orders", "orders"⟩ env []).status = SyncStatus.success ↔
      env.extractErr = none ∧ env.ensureStagingErr = none ∧
      (env.sourceRows.filter
          (fun x =>
            get_last_sync_time_safe (ledger_read_call env []) (⟨"orders", "orders"⟩ : TableCfg).bqTable < x)
            = [] ∨
        (env.loadErr = none ∧ env.mergeErr = none)))) :=
  sync_table_addcols_error_warns_and_proceeds ⟨"orders", "orders"⟩
    { runTime := 10, schemaErr := none, mysqlSchema := [("id", "int")],
      targetExists := true, createErr := none,
      addColsTargetErr := some "alter failed", addColsTargetNew := [],
      ledgerReadErr := none, extractErr := none, sourceRows := [5],
      ensureStagingErr := none, addColsStagingErr := none, loadErr := none,
      mergeErr := none } [] "alter failed" rfl rfl rfl

/-! ## Fault isolation (C4) -/

lemma run_sync_pipeline_length (ts : List (TableCfg × TableEnv)) :
    ∀ L, (run_sync_pipeline L ts).1.length = ts.length := by
  induction ts with
  | nil => intro L; rfl
  | cons ce rest ih =>
    intro L
    obtain ⟨cfg, env⟩ := ce
    simp only [run_sync_pipeline, List.length_cons]
    rw [ih]

lemma filter_map_invariant {α : Type} (l : List α) (f : α → α) (p : α → Bool)
    (hf : ∀ x ∈ l, (p x = false ∧ p (f x) = false) ∨ f x = x) :
    (l.map f).filter p = l.filter p := by
  induction l with
  | nil => rfl
  | cons a tl ih =>
    have ih' := ih fun x hx => hf x (List.mem_cons_of_mem a hx)
    rw [List.map_cons, List.filter_cons, List.filter_cons]
    rcases hf a (List.mem_cons_self a tl) with ⟨h1, h2⟩ | h3
    · rw [h1, h2, ih']
      simp
    · rw [h3, ih']

lemma success_rows_map_replace (L : List LedgerRow) (row : LedgerRow) (n m : String)
    (hrow : row.tableName = n) (hne : n ≠ m) :
    success_rows (L.map (fun r => if r.tableName == n then row else r)) m
      = success_rows L m := by
  refine filter_map_invariant L _ _ fun x _ => ?_
  by_cases hxn : x.tableName = n
  · left
    constructor
    · have hxm : (x.tableName == m) = false :=
        beq_eq_false_iff_ne.mpr (by rw [hxn]; exact hne)
      simp [hxm]
    · have hb : (x.tableName == n) = true := beq_iff_eq.mpr hxn
      have hr : (row.tableName == m) = false :=
        beq_eq_false_iff_ne.mpr (by rw [hrow]; exact hne)
      simp [hb, hr]
  · right
    have hb : (x.tableName == n) = false := beq_eq_false_iff_ne.mpr hxn
    simp [hb]

lemma success_rows_update_metadata_ne (L : List LedgerRow) (n m : String) (hne : n ≠ m)
    (rt : Int) (st : Option Int) (s : SyncStatus) (rc cc : Nat) (rem : List String) :
    success_rows (update_metadata L n rt st s rc cc rem) m = success_rows L m := by
  unfold update_metadata
  by_cases hany : L.any (fun r => r.tableName == n) = true
  · simp only [hany, if_true]
    exact success_rows_map_replace L _ n m rfl hne
  · have hb : (n == m) = false := beq_eq_false_iff_ne.mpr hne
    simp only [Bool.not_eq_true] at hany
    simp [hany, success_rows, List.filter_append, hb]

lemma get_last_sync_time_update_metadata_ne (L : List LedgerRow) (n m : String)
    (hne : n ≠ m) (rt : Int) (st : Option Int) (s : SyncStatus) (rc cc : Nat)
    (rem : List String) :
    get_last_sync_time (update_metadata L n rt st s rc cc rem) m
      = get_last_sync_time L m := by
  unfold get_last_sync_time
  rw [success_rows_update_metadata_ne L n m hne rt st s rc cc rem]

lemma sync_table_ledger_congr (cfg : TableCfg) (env : TableEnv)
    (L L' : List LedgerRow)
    (h : get_last_sync_time L cfg.bqTable = get_last_sync_time L' cfg.bqTable) :
    sync_table cfg env L = sync_table cfg env L' := by
  unfold sync_table get_last_sync_time_safe ledger_read_call
  cases hr : env.ledgerReadErr with
  | some e => rfl
  | none =>
    show sync_table_aux cfg env (get_last_sync_time L cfg.bqTable)
        = sync_table_aux cfg env (get_last_sync_time L' cfg.bqTable)
    rw [h]

lemma run_sync_pipeline_getD (ts : List (TableCfg × TableEnv)) (L0 : List LedgerRow) :
    ∀ L : List LedgerRow,
    (∀ j, j < ts.length →
      get_last_sync_time L ((ts.getD j default).1.bqTable)
        = get_last_sync_time L0 ((ts.getD j default).1.bqTable)) →
    (ts.map (fun t => t.1.bqTable)).Nodup →
    ∀ i, i < ts.length →
      (run_sync_pipeline L ts).1.getD i default
        = sync_table (ts.getD i default).1 (ts.getD i default).2 L0 := by
  induction ts with
  | nil => intro L _ _ i hi; exact absurd hi (Nat.not_lt_zero i)
  | cons ce rest ih =>
    intro L hq hnod i hi
    obtain ⟨cfg, env⟩ := ce
    rw [List.map_cons, List.nodup_cons] at hnod
    cases i with
    | zero =>
      show sync_table cfg env L = sync_table cfg env L0
      exact sync_table_ledger_congr cfg env L L0 (hq 0 (Nat.succ_pos _))
    | succ n =>
      have hi' : n < rest.length := Nat.succ_lt_succ_iff.mp hi
      exact ih
        (update_metadata L cfg.bqTable (sync_table cfg env L).runTime
          (if (sync_table cfg env L).status == SyncStatus.success
              && (sync_table cfg env L).lastSyncedValue.isSome
            then (sync_table cfg env L).lastSyncedValue else none)
          (sync_table cfg env L).status (sync_table cfg env L).rowCount
          (sync_table cfg env L).columnCount (sync_table cfg env L).remark)
        (fun j hj => by
          have hmem : rest.getD j default ∈ rest := by
            rw [List.getD_eq_getElem rest default hj]
            exact List.getElem_mem hj
          have hne : cfg.bqTable ≠ (rest.getD j default).1.bqTable := by
            intro hEq
            exact hnod.1
              (hEq ▸ List.mem_map_of_mem (fun t => t.1.bqTable) hmem)
          rw [get_last_sync_time_update_metadata_ne _ _ _ hne]
          exact hq (j + 1) (Nat.succ_lt_succ hj))
        hnod.2 n hi'

lemma sync_table_aux_extract_error (cfg : TableCfg) (env : TableEnv) (w : Int)
    (m : String) (h1 : env.schemaErr = none) (h2 : env.targetExists = true)
    (h3 : env.extractErr = some m) :
    (sync_table_aux cfg env w).status = SyncStatus.failed ∧
    ("MySQL extraction failed: " ++ ("MySQL extraction failed: " ++ m))
        ∈ (sync_table_aux cfg env w).remark := by
  unfold sync_table_aux get_table_schema_call create_table_call
    add_missing_columns_target_call extract_incremental_data_call
  rw [h1, h2, h3]
  cases ha : env.addColsTargetErr with
  | some e => simp
  | none => by_cases hn : env.addColsTargetNew.isEmpty <;> simp [hn]

/-- C4: fault isolation across tables.  With pairwise distinct destination
table names (a configuration invariant), if table k's extraction fails
while its schema fetch succeeds and its destination table exists, then
the outcome report has exactly one entry per configured table, the entry
of table k is FAILED with the failure cause inside its remark, and every
other table's entry is exactly what running that table alone against the
initial ledger produces — unaffected by table k's failure.  `sync_table`
itself is a total function of the per-table call outcomes, modelling that
it never raises to its caller. -/
theorem run_sync_pipeline_fault_isolation
    (ts : List (TableCfg × TableEnv)) (L0 : List LedgerRow) (k : Nat) (m : String)
    (hk : k < ts.length)
    (hnod : (ts.map (fun t => t.1.bqTable)).Nodup)
    (hschema : (ts.getD k default).2.schemaErr = none)
    (hexists : (ts.getD k default).2.targetExists = true)
    (hfail : (ts.getD k default).2.extractErr = some m) :
    (run_sync_pipeline L0 ts).1.length = ts.length ∧
    ((run_sync_pipeline L0 ts).1.getD k default).status = SyncStatus.failed ∧
    ("MySQL extraction failed: " ++ ("MySQL extraction failed: " ++ m))
        ∈ ((run_sync_pipeline L0 ts).1.getD k default).remark ∧
    (∀ i, i < ts.length → i ≠ k →
      (run_sync_pipeline L0 ts).1.getD i default
        = sync_table (ts.getD i default).1 (ts.getD i default).2 L0) := by
  have hgetD : ∀ i, i < ts.length →
      (run_sync_pipeline L0 ts).1.getD i default
        = sync_table (ts.getD i default).1 (ts.getD i default).2 L0 :=
    run_sync_pipeline_getD ts L0 L0 (fun _ _ => rfl) hnod
  have hkEq := hgetD k hk
  refine ⟨run_sync_pipeline_length ts L0, ?_, ?_, fun i hi _ => hgetD i hi⟩
  · rw [hkEq]
    exact (sync_table_aux_extract_error (ts.getD k default).1 (ts.getD k default).2
      _ m hschema hexists hfail).1
  · rw [hkEq]
    exact (sync_table_aux_extract_error (ts.getD k default).1 (ts.getD k default).2
      _ m hschema hexists hfail).2

/-- The two-table configuration of the C4 witness: table `a` fails
extraction with a connectivity error, table `b` succeeds. -/
def c4_tables : List (TableCfg × TableEnv) :=
  [(⟨"a", "a"⟩,
    { runTime := 1, schemaErr := none, mysqlSchema := [("id", "int")],
      targetExists := true, createErr := none, addColsTargetErr := none,
      addColsTargetNew := [], ledgerReadErr := none,
      extractErr := some "conn refused", sourceRows := [1],
      ensureStagingErr := none, addColsStagingErr := none, loadErr := none,
      mergeErr := none }),
   (⟨"b", "b"⟩,
    { runTime := 2, schemaErr := none, mysqlSchema := [("id", "int")],
      targetExists := true, createErr := none, addColsTargetErr := none,
      addColsTargetNew := [], ledgerReadErr := none, extractErr := none,
      sourceRows := [2], ensureStagingErr := none, addColsStagingErr := none,
      loadErr := none, mergeErr := none })]

/-- Witness for C4 at the two-table configuration `c4_tables` with table
0 failing extraction. -/
theorem run_sync_pipeline_fault_isolation_witness :
    (run_sync_pipeline [] c4_tables).1.length = c4_tables.length ∧
    ((run_sync_pipeline [] c4_tables).1.getD 0 default).status = SyncStatus.failed ∧
    ("MySQL extraction failed: " ++ ("MySQL extraction failed: " ++ "conn refused"))
        ∈ ((run_sync_pipeline [] c4_tables).1.getD 0 default).remark ∧
    (∀ i, i < c4_tables.length → i ≠ 0 →
      (run_sync_pipeline [] c4_tables).1.getD i default
        = sync_table (c4_tables.getD i default).1 (c4_tables.getD i default).2 []) :=
  run_sync_pipeline_fault_isolation c4_tables [] 0 "conn refused"
    (by decide) (by decide) rfl rfl rfl

/-- Witness for C9 at the spec's scenario: a destination with column
`id` and an incoming schema that also carries `referral_code`. -/
theorem add_missing_columns_idempotent_forward_only_witness :
    (∀ n, n ∈ (add_missing_columns [⟨"id", "INT64"⟩]
        [("id", "int"), ("referral_code", "varchar(32)")]).1 ↔
      ∃ ty, (n, ty) ∈ [("id", "int"), ("referral_code", "varchar(32)")] ∧
        n ∉ ([⟨"id", "INT64"⟩] : List BqField).map (fun f => f.name)) ∧
    (add_missing_columns (add_missing_columns [⟨"id", "INT64"⟩]
        [("id", "int"), ("referral_code", "varchar(32)")]).2
        [("id", "int"), ("referral_code", "varchar(32)")]).1 = [] ∧
    (add_missing_columns (add_missing_columns [⟨"id", "INT64"⟩]
        [("id", "int"), ("referral_code", "varchar(32)")]).2
        [("id", "int"), ("referral_code", "varchar(32)")]).2
      = (add_missing_columns [⟨"id", "INT64"⟩]
        [("id", "int"), ("referral_code", "varchar(32)")]).2 ∧
    (∃ rest, (add_missing_columns [⟨"id", "INT64"⟩]
        [("id", "int"), ("referral_code", "varchar(32)")]).2
      = [⟨"id", "INT64"⟩] ++ rest) ∧
    (∀ p ∈ [("id", "int"), ("referral_code", "varchar(32)")],
      p.1 ∈ (add_missing_columns [⟨"id", "INT64"⟩]
        [("id", "int"), ("referral_code", "varchar(32)")]).2.map (fun f => f.name)) :=
  add_missing_columns_idempotent_forward_only [⟨"id", "INT64"⟩]
    [("id", "int"), ("referral_code", "varchar(32)")]

